import Mathlib

/-!
Verification development for the Stratum simulation primitives in
`protocols/stratum/sim/sim_primitives` (pool.py, coins.py, hashrate_meter.py,
protocol.py, stratum_v1/pool.py, stratum_v1/messages.py, stratum_v2/pool.py,
stratum_v2/messages.py).

The Python code is shallowly embedded: Python ints become `Nat`/`Int`
(arbitrary precision, as in Python they never overflow), Python floats that
only ever hold exactly representable values become `Rat`, fallible code
returns `Except PyError`, and objects become structures holding the fields
their constructors assign.
-/

/-- Kinds of Python exceptions that the embedded code can raise.  Only the
kind is tracked, not the message payload. -/
inductive PyError where
  | keyError
  | typeError
  | attributeError
  | nameError
  | indexError
  | runtimeError
  | zeroDivisionError
  deriving DecidableEq, Repr

/-- Embeds `MiningJob` (pool.py lines 11-21): `__init__(self, uid, diff_target)`
assigns `self.uid = uid` and `self.diff_target = diff_target`. -/
structure MiningJob where
  uid : Nat
  diff_target : Nat
  deriving DecidableEq, Repr

/-- Embeds `MiningJobRegistry` state (pool.py lines 31-35):
`min_valid_job_uid` and `next_job_uid` both start at 0, `jobs` is a dict
keyed by uid.  The dict is embedded as an association list where the most
recent binding for a key shadows older ones (cons + first-match lookup,
matching Python dict update/lookup). -/
structure MiningJobRegistry where
  min_valid_job_uid : Nat
  next_job_uid : Nat
  jobs : List (Nat × MiningJob)
  deriving DecidableEq, Repr

/-- Fresh registry as built by `MiningJobRegistry.__init__`. -/
def MiningJobRegistry.init : MiningJobRegistry :=
  { min_valid_job_uid := 0, next_job_uid := 0, jobs := [] }

/-- Embeds `MiningJobRegistry.new_mining_job` (pool.py lines 37-41) together
with `__next_job_uid` (lines 60-66).  The source constructs
`MiningJob(diff_target, self.__next_job_uid())` while the constructor
signature is `MiningJob.__init__(self, uid, diff_target)`, so the positional
arguments land swapped: the `uid` field receives `diff_target` and the
`diff_target` field receives the fresh counter value.  The job is then
registered under `new_job.uid`, i.e. under the diff_target value. -/
def MiningJobRegistry.new_mining_job (r : MiningJobRegistry) (diff_target : Nat) :
    MiningJob × MiningJobRegistry :=
  let curr_job_uid := r.next_job_uid
  let new_job : MiningJob := { uid := diff_target, diff_target := curr_job_uid }
  (new_job,
    { r with
      next_job_uid := curr_job_uid + 1
      jobs := (new_job.uid, new_job) :: r.jobs })

/-- Embeds `MiningJobRegistry.contains` (pool.py lines 46-50):
`job_uid in self.jobs`. -/
def MiningJobRegistry.contains (r : MiningJobRegistry) (job_uid : Nat) : Bool :=
  (r.jobs.lookup job_uid).isSome

/-- Embeds `MiningJobRegistry.get_job_diff_target` (pool.py lines 43-44):
`self.jobs[job_uid].diff_target`; a missing key raises KeyError. -/
def MiningJobRegistry.get_job_diff_target (r : MiningJobRegistry) (job_uid : Nat) :
    Except PyError Nat :=
  match r.jobs.lookup job_uid with
  | some j => .ok j.diff_target
  | none => .error .keyError

/-- Embeds `MiningJobRegistry.is_job_uid_valid` (pool.py lines 52-54):
the body is `return self.jobs[job_uid] >= self.min_valid_job_uid`.
`self.jobs[job_uid]` raises KeyError when the uid is absent; when present it
yields the `MiningJob` object itself, and `MiningJob >= int` is an
unsupported comparison in Python (MiningJob defines no ordering methods), so
the comparison raises TypeError.  The function therefore never returns a
boolean. -/
def MiningJobRegistry.is_job_uid_valid (r : MiningJobRegistry) (job_uid : Nat) :
    Except PyError Bool :=
  match r.jobs.lookup job_uid with
  | some _ => .error .typeError
  | none => .error .keyError

/-- Embeds `MiningJobRegistry.retire_all_jobs` (pool.py lines 56-58). -/
def MiningJobRegistry.retire_all_jobs (r : MiningJobRegistry) : MiningJobRegistry :=
  { r with min_valid_job_uid := r.next_job_uid }

/-- Validity test as the specification words it ("a job is valid iff
uid >= min_valid_uid"); kept separate from the source embedding above so the
two can be compared. -/
def MiningJobRegistry.is_job_uid_valid_spec (r : MiningJobRegistry) (job_uid : Nat) : Bool :=
  decide (job_uid ≥ r.min_valid_job_uid)

/-- Session state consulted by `Pool.process_submit`: the per-session
`diff_1_target`, the session's job registry, and the session meter.  A meter
is embedded as the list of difficulties it has measured, most recent first. -/
structure SessionAcct where
  diff_1_target : Nat
  job_registry : MiningJobRegistry
  meter : List Nat
  deriving DecidableEq, Repr

/-- Embeds `MiningSession.target2diff` (pool.py lines 112-114):
`self.diff_1_target // target`; Python raises ZeroDivisionError when the
divisor is 0. -/
def SessionAcct.target2diff (s : SessionAcct) (target : Nat) : Except PyError Nat :=
  if target = 0 then .error .zeroDivisionError else .ok (s.diff_1_target / target)

/-- Pool counters and meters touched by `Pool.process_submit`
(pool.py lines 202-216). -/
structure PoolAcct where
  accepted_submits : Nat
  stale_submits : Nat
  rejected_submits : Nat
  accepted_shares : Nat
  stale_shares : Nat
  meter_accepted : List Nat
  meter_rejected_stale : List Nat
  deriving DecidableEq, Repr

/-- Callback invoked at the end of `Pool.process_submit`: `on_accept(diff)` or
`on_reject(diff)` where diff may be None. -/
inductive SubmitCallback where
  | onAccept (diff : Nat)
  | onReject (diff : Option Nat)
  deriving DecidableEq, Repr

/-- Embeds `Pool.process_submit` (pool.py lines 260-285), statement by
statement.  First `diff` is computed: None when the registry does not contain
the uid, otherwise `session.target2diff(session.job_registry.get_job_diff_target(uid))`
(which raises ZeroDivisionError when the stored diff_target is 0).  Then the
code branches on `session.job_registry.is_job_uid_valid(submit_job_uid)`,
which raises for every input (see its embedding above).  The accepted branch
would add `diff` to the counters (`accepted_shares += None` would itself be a
TypeError when diff is None); the reject branch distinguishes stale
(diff present) from rejected (diff None). -/
def Pool.process_submit (p : PoolAcct) (s : SessionAcct) (submit_job_uid : Nat) :
    Except PyError (PoolAcct × SessionAcct × SubmitCallback) := do
  let diff? : Option Nat ←
    if s.job_registry.contains submit_job_uid then do
      let t ← s.job_registry.get_job_diff_target submit_job_uid
      let d ← s.target2diff t
      pure (some d)
    else
      pure none
  let valid ← s.job_registry.is_job_uid_valid submit_job_uid
  if valid then
    match diff? with
    | some d =>
        .ok ({ p with
                accepted_submits := p.accepted_submits + 1
                accepted_shares := p.accepted_shares + d
                meter_accepted := d :: p.meter_accepted },
             { s with meter := d :: s.meter },
             .onAccept d)
    | none => .error .typeError
  else
    match diff? with
    | some d =>
        .ok ({ p with
                stale_submits := p.stale_submits + 1
                stale_shares := p.stale_shares + d
                meter_rejected_stale := d :: p.meter_rejected_stale },
             s,
             .onReject (some d))
    | none =>
        .ok ({ p with rejected_submits := p.rejected_submits + 1 },
             s,
             .onReject none)

/-- States of a V1 mining session (stratum_v1/pool.py lines 15-23). -/
inductive V1State where
  | INIT
  | CONFIGURED
  | AUTHORIZED
  | SUBSCRIBED
  | RUNNING
  deriving DecidableEq, Repr

/-- Embeds the V1 session fields that `visit_subscribe` touches:
the state, the vardiff flag, and whether `MiningSession.run` has created the
meter and started the vardiff process (pool.py lines 120-124). -/
structure MiningSessionV1 where
  state : V1State
  enable_vardiff : Bool
  meter_created : Bool
  vardiff_started : Bool
  deriving DecidableEq, Repr

/-- Embeds `MiningSessionV1.run` (stratum_v1/pool.py lines 31-34):
`super().run()` creates the meter and spawns the vardiff process when
`enable_vardiff` is set (pool.py lines 120-124), then the state is set to
RUNNING. -/
def MiningSessionV1.run (s : MiningSessionV1) : MiningSessionV1 :=
  let s1 :=
    if s.enable_vardiff then { s with meter_created := true, vardiff_started := true }
    else s
  { s1 with state := .RUNNING }

/-- Messages a V1 pool handler can send (stratum_v1/messages.py).  Only the
constructors reachable from the embedded handlers are listed. -/
inductive V1SentMsg where
  | subscribeResponse (subscription_ids : Option Nat) (extranonce1 : List Nat)
      (extranonce2_size : Nat)
  | errorResult (req_id : Int) (code : Int) (msg : String)
  | okResult (req_id : Option Nat)
  deriving DecidableEq, Repr

/-- Embeds `PoolV1.visit_subscribe` (stratum_v1/pool.py lines 64-94) as a
function of the session, returning the updated session together with the
outcome of the handler body.

In the INIT/AUTHORIZED branch the state is first set to SUBSCRIBED
(line 75); the handler then builds
`SubscribeResponse(subscription_ids=None, extranonce1=bytes([0]*8),
extranonce2_size=...)`, but `SubscribeResponse.__init__` in
stratum_v1/messages.py line 50 takes `(self, req_id, subscription_ids,
extranonce1, extranonce2_size)` and the required positional parameter
`req_id` is never supplied, so the construction raises TypeError before
anything is sent and before `mining_session.run()` is reached.

In the other branch the handler builds
`ErrorResult(-1, 'Subscribe not expected when in: ...')`, but
`ErrorResult.__init__` (messages.py line 103) takes `(self, req_id, code,
msg)` and only two of the three required arguments are supplied, so this
construction also raises TypeError and nothing is sent. -/
def PoolV1.visit_subscribe (s : MiningSessionV1) :
    MiningSessionV1 × Except PyError (List V1SentMsg) :=
  if s.state = .INIT ∨ s.state = .AUTHORIZED then
    ({ s with state := .SUBSCRIBED }, .error .typeError)
  else
    (s, .error .typeError)

/-- Embeds `PoolV1._on_invalid_message` (stratum_v1/pool.py lines 154-158):
it builds `ErrorResult(-2, 'Unrecognized message: ...')`, but
`ErrorResult.__init__` requires three arguments `(req_id, code, msg)`, so the
construction raises TypeError instead of producing a reply. -/
def PoolV1.on_invalid_message : Except PyError (List V1SentMsg) :=
  .error .typeError

/-- Embeds `stringcase.snakecase` on the tail of a class name: every upper
case letter becomes an underscore followed by its lower case form. -/
def snakecaseAux : List Char → List Char
  | [] => []
  | c :: cs => (if c.isUpper then ['_', c.toLower] else [c]) ++ snakecaseAux cs

/-- Embeds `stringcase.snakecase` as used by `Message.accept`
(protocol.py line 50): the first character is lowercased and every later
upper case character is replaced by an underscore plus its lower case form,
so that e.g. SetupConnection becomes setup_connection. -/
def snakecase (s : String) : String :=
  match s.data with
  | [] => ""
  | c :: cs => String.mk (c.toLower :: snakecaseAux cs)

/-- Visitor method name computed by `Message.accept` (protocol.py line 50):
`'visit_{}'.format(stringcase.snakecase(type(self).__name__))`. -/
def Message.accept_method_name (msgClassName : String) : String :=
  "visit_" ++ snakecase msgClassName

/-- Exception raised by `Message.accept` when the visitor lacks the method:
`class VisitorMethodNotImplemented(Exception)` (protocol.py lines 36-43).
It derives from Exception, not from AttributeError: the AttributeError of
the failed `getattr` is caught inside `accept` and re-raised as this type. -/
inductive AcceptExc where
  | visitorMethodNotImplemented (method_name : String)
  deriving DecidableEq, Repr

/-- Whether an exception is an AttributeError (what the
`except AttributeError` arm of `Pool.__receive_loop` can catch).
VisitorMethodNotImplemented is a plain Exception subclass, so it is not. -/
def AcceptExc.is_attribute_error : AcceptExc → Bool
  | .visitorMethodNotImplemented _ => false

/-- Embeds `Message.accept` (protocol.py lines 48-56), abstracted over the
set of `visit_*` method names the visitor defines: a missing method raises
VisitorMethodNotImplemented, otherwise the handler runs. -/
def Message.accept (visitor_methods : List String) (msgClassName : String) :
    Except AcceptExc Unit :=
  let method_name := Message.accept_method_name msgClassName
  if method_name ∈ visitor_methods then .ok ()
  else .error (.visitorMethodNotImplemented method_name)

/-- Visit methods defined by `PoolV1` (stratum_v1/pool.py): visit_subscribe,
visit_authorize and visit_submit. -/
def PoolV1.visit_method_names : List String :=
  ["visit_subscribe", "visit_authorize", "visit_submit"]

/-- Visit methods defined by `PoolV2` (stratum_v2/pool.py):
visit_setup_connection, visit_open_mining_channel and visit_submit_shares. -/
def PoolV2.visit_method_names : List String :=
  ["visit_setup_connection", "visit_open_mining_channel", "visit_submit_shares"]

/-- Outcome of one iteration of the inner try of `Pool.__receive_loop`
(pool.py lines 308-315). -/
inductive RecvLoopOutcome where
  | handled
  | invalid_message_handled
  | escaped (e : AcceptExc)
  deriving DecidableEq, Repr

/-- Embeds the dispatch step of `Pool.__receive_loop` (pool.py lines
308-315): `msg.accept(self)` is wrapped in `except AttributeError`, whose
arm calls `self._on_invalid_message(msg)`.  Any exception that is not an
AttributeError -- in particular VisitorMethodNotImplemented -- propagates out
of the loop (the outer try only catches simpy.Interrupt), terminating the
receive process. -/
def Pool.receive_step (visitor_methods : List String) (msgClassName : String) :
    RecvLoopOutcome :=
  match Message.accept visitor_methods msgClassName with
  | .ok () => .handled
  | .error e => if e.is_attribute_error then .invalid_message_handled else .escaped e

/-- Embeds `Target` (coins.py lines 26-29): a pair of a current target and
the difficulty-1 target, both arbitrary precision non-negative ints. -/
structure Target where
  target : Nat
  diff_1_target : Nat
  deriving DecidableEq, Repr

/-- Embeds `Target.to_difficulty` (coins.py lines 31-33):
`self.diff_1_target // self.target`.  Nat division agrees with Python floor
division on non-negative operands; the claims only quantify over inputs that
keep the divisor positive (Python would raise ZeroDivisionError at 0). -/
def Target.to_difficulty (t : Target) : Nat :=
  t.diff_1_target / t.target

/-- Embeds `Target.from_difficulty` (coins.py lines 35-38):
`Target(diff_1_target // diff, diff_1_target)`. -/
def Target.from_difficulty (diff diff_1_target : Nat) : Target :=
  { target := diff_1_target / diff, diff_1_target := diff_1_target }

/-- Pool attributes that `PoolV2.visit_open_mining_channel` reads besides
`default_target`.  These are the fields assigned by `Pool.__init__`
(pool.py lines 184-216) that matter here. -/
structure PoolFields where
  default_difficulty : Nat
  diff_1_target : Nat
  extranonce2_size : Nat
  deriving DecidableEq, Repr

/-- Attribute access `self.pool.default_target` (stratum_v2/pool.py line
155).  `Pool.__init__` (pool.py lines 171-216) assigns name, env, bus,
default_difficulty, diff_1_target, extranonce2_size, avg_pool_block_time,
connections, prev_hash, active_conn_uid, recv_loop_processes,
pow_update_process, meter_accepted, meter_rejected_stale, meter_process,
enable_vardiff, desired_submits_per_sec, simulate_luck, extra_meters and the
five counters -- never `default_target`, and no other method of the class
assigns it (the sim drivers even pass `default_target=` to `Pool(...)`,
which its signature rejects).  The access therefore raises AttributeError. -/
def PoolFields.default_target (_p : PoolFields) : Except PyError Target :=
  .error .attributeError

/-- Embeds the open-channel request messages of stratum_v2/messages.py:
`OpenStandardMiningChannel.__init__` (lines 86-100) assigns req_id,
user_identity, nominal_hashrate and max_target;
`OpenExtendedMiningChannel` (lines 118-122) additionally assigns
min_extranonce_size. -/
inductive OpenMiningChannelMsg where
  | standard (req_id : Nat) (user_identity : String) (nominal_hashrate : Rat)
      (max_target : Nat)
  | extended (req_id : Nat) (user_identity : String) (nominal_hashrate : Rat)
      (max_target : Nat) (min_extranonce_size : Nat)
  deriving DecidableEq, Repr

/-- Field access `msg.req_id`, present on both message classes. -/
def OpenMiningChannelMsg.req_id : OpenMiningChannelMsg → Nat
  | .standard r _ _ _ => r
  | .extended r _ _ _ _ => r

/-- Field access `msg.max_target`, present on both message classes. -/
def OpenMiningChannelMsg.max_target : OpenMiningChannelMsg → Nat
  | .standard _ _ _ t => t
  | .extended _ _ _ t _ => t

/-- Field access `msg.min_extranonce_size` (stratum_v2/pool.py line 156):
only `OpenExtendedMiningChannel` assigns this attribute, so reading it from
an `OpenStandardMiningChannel` instance raises AttributeError. -/
def OpenMiningChannelMsg.min_extranonce_size :
    OpenMiningChannelMsg → Except PyError Nat
  | .standard _ _ _ _ => .error .attributeError
  | .extended _ _ _ _ m => .ok m

/-- Reply messages of the embedded `visit_open_mining_channel`. -/
inductive V2SentMsg where
  | openMiningChannelError (req_id : Nat) (error_code : String)
  deriving DecidableEq, Repr

/-- Embeds `PoolV2.visit_open_mining_channel` (stratum_v2/pool.py lines
153-215).  The guard evaluates
`msg.max_target <= self.pool.default_target.diff_1_target` first, so against
the Pool of sim_primitives/pool.py every call raises AttributeError at
`default_target` (see `PoolFields.default_target`).  Even granting that
attribute, the second conjunct reads `msg.min_extranonce_size`, which
standard open messages lack, and the accept branch constructs
`OpenMiningChannelSuccess`, a name stratum_v2/messages.py does not define
(NameError), before any message could be sent. -/
def PoolV2.visit_open_mining_channel (pool : PoolFields)
    (msg : OpenMiningChannelMsg) : Except PyError (List V2SentMsg) := do
  let dt ← pool.default_target
  if msg.max_target ≤ dt.diff_1_target then do
    let mes ← msg.min_extranonce_size
    if mes ≤ pool.extranonce2_size then
      .error .nameError
    else
      .ok [.openMiningChannelError msg.req_id ("Cannot open mining channel")]
  else
    .ok [.openMiningChannelError msg.req_id ("Cannot open mining channel")]

/-- Vardiff clamp bounds, class attributes of `MiningSession`
(pool.py lines 72-73). -/
def MiningSession.min_factor : ℚ := 1/4

/-- Vardiff clamp upper bound (pool.py line 73). -/
def MiningSession.max_factor : ℚ := 4

/-- Embeds the clamping statements of `MiningSession.__vardiff_loop`
(pool.py lines 141-144). -/
def MiningSession.clamp_factor (factor0 : ℚ) : ℚ :=
  if factor0 < MiningSession.min_factor then MiningSession.min_factor
  else if factor0 > MiningSession.max_factor then MiningSession.max_factor
  else factor0

/-- Embeds Python `int(round(x))` (pool.py line 146): round half to even.
The float multiplication feeding it is embedded over the rationals. -/
def pyRoundHalfEven (q : ℚ) : ℤ :=
  if q - ⌊q⌋ < 1/2 then ⌊q⌋
  else if 1/2 < q - ⌊q⌋ then ⌊q⌋ + 1
  else if ⌊q⌋ % 2 = 0 then ⌊q⌋ else ⌊q⌋ + 1

/-- Embeds the factor selection of `MiningSession.__vardiff_loop`
(pool.py lines 135-140): `submits_per_sec` is the result of
`meter.get_submit_per_secs()`, which is None within the first second of a
window (hashrate_meter.py lines 110-117).  `None == 0` is False in Python,
so the None case reaches `None / desired` and raises TypeError; a numeric 0
selects the factor 0.5; otherwise the factor is the ratio (a zero desired
rate would raise ZeroDivisionError). -/
def MiningSession.vardiff_factor0 (submits_per_sec : Option ℚ) (desired : ℚ) :
    Except PyError ℚ :=
  match submits_per_sec with
  | some r =>
      if r = 0 then .ok (1/2 : ℚ)
      else if desired = 0 then .error .zeroDivisionError
      else .ok (r / desired)
  | none => .error .typeError

/-- Result of one iteration of the vardiff loop body. -/
structure VardiffIter where
  factor : ℚ
  curr_diff : ℤ
  on_vardiff_change_called : Bool
  deriving DecidableEq, Repr

/-- Embeds one iteration of `MiningSession.__vardiff_loop` (pool.py lines
134-151): compute the raw factor, clamp it to [min_factor, max_factor],
set `curr_diff = int(round(curr_diff * factor))`, emit DIFF_UPDATE and call
`on_vardiff_change(self)`. -/
def MiningSession.vardiff_iteration (curr_diff : ℤ) (submits_per_sec : Option ℚ)
    (desired : ℚ) : Except PyError VardiffIter :=
  match MiningSession.vardiff_factor0 submits_per_sec desired with
  | .error e => .error e
  | .ok factor0 =>
      let factor := MiningSession.clamp_factor factor0
      .ok { factor := factor
            curr_diff := pyRoundHalfEven ((curr_diff : ℚ) * factor)
            on_vardiff_change_called := true }

/-- Modelled simpy process handle.  `Process.interrupt()` schedules an
Interruption event; simpy's `Interruption.__init__` raises RuntimeError when
the target process has already terminated.  Both
`MiningSession.__vardiff_loop` (pool.py lines 152-153) and
`HashrateMeter.roll` (hashrate_meter.py lines 73-74) catch simpy.Interrupt
and break out of their loops, so once a delivered interrupt has been
processed the interrupted process is terminated. -/
structure SimProc where
  alive : Bool
  deriving DecidableEq, Repr

/-- Interrupting a live process eventually terminates it; interrupting an
already-terminated process raises RuntimeError (simpy semantics, see
`SimProc`). -/
def SimProc.interrupt (p : SimProc) : Except PyError SimProc :=
  if p.alive then .ok { alive := false } else .error .runtimeError

/-- Process handles owned by a `HashrateMeter`: the roll process spawned by
`__init__` (hashrate_meter.py line 47) and the optional auto-hold process. -/
structure HashrateMeterProcs where
  roll_proc : SimProc
  put_on_hold_proc : Option SimProc
  deriving DecidableEq, Repr

/-- Embeds `HashrateMeter.terminate` (hashrate_meter.py lines 122-125):
interrupt the roll process, and the hold process when present. -/
def HashrateMeter.terminate (m : HashrateMeterProcs) :
    Except PyError HashrateMeterProcs :=
  match m.roll_proc.interrupt with
  | .error e => .error e
  | .ok r =>
      match m.put_on_hold_proc with
      | some h =>
          match h.interrupt with
          | .error e => .error e
          | .ok h' => .ok { roll_proc := r, put_on_hold_proc := some h' }
      | none => .ok { roll_proc := r, put_on_hold_proc := none }

/-- Process-owning state of a `MiningSession` (pool.py lines 98-100,
120-124): `vardiff_process` and `meter` are None until `run()` creates
them when vardiff is enabled. -/
structure MiningSessionProcs where
  enable_vardiff : Bool
  vardiff_process : Option SimProc
  meter : Option HashrateMeterProcs
  deriving DecidableEq, Repr

/-- Embeds `MiningSession.terminate` (pool.py lines 126-130): when vardiff is
enabled it interrupts the vardiff process and terminates the meter (a None
field would raise AttributeError); otherwise it does nothing. -/
def MiningSession.terminate (s : MiningSessionProcs) :
    Except PyError MiningSessionProcs :=
  if s.enable_vardiff then
    match s.vardiff_process with
    | none => .error .attributeError
    | some p =>
        match p.interrupt with
        | .error e => .error e
        | .ok v =>
            match s.meter with
            | none => .error .attributeError
            | some mt =>
                match HashrateMeter.terminate mt with
                | .error e => .error e
                | .ok m' =>
                    .ok { s with vardiff_process := some v, meter := some m' }
  else .ok s

/-- Embeds `MiningChannel` as far as `ChannelRegistry` uses it
(stratum_v2/pool.py lines 33-46): a connection uid and a channel id that is
None until `set_id` assigns it. -/
structure MiningChannelV2 where
  conn_uid : Nat
  id : Option Nat
  deriving DecidableEq, Repr

/-- Embeds `MiningChannel.set_id` (stratum_v2/pool.py lines 45-46). -/
def MiningChannelV2.set_id (c : MiningChannelV2) (channel_id : Nat) :
    MiningChannelV2 :=
  { c with id := some channel_id }

/-- Embeds `ChannelRegistry` state (stratum_v2/pool.py lines 86-91). -/
structure ChannelRegistry where
  conn_uid : Nat
  channels : List MiningChannelV2
  deriving DecidableEq, Repr

/-- Fresh registry for a connection. -/
def ChannelRegistry.init (conn_uid : Nat) : ChannelRegistry :=
  { conn_uid := conn_uid, channels := [] }

/-- Embeds `ChannelRegistry.append` (stratum_v2/pool.py lines 93-97):
the new channel id is the current vector length. -/
def ChannelRegistry.append (r : ChannelRegistry) (c : MiningChannelV2) :
    ChannelRegistry :=
  { r with channels := r.channels ++ [c.set_id r.channels.length] }

/-- Python list subscription `l[i]` for an int index: non-negative indexes
address from the front, negative indexes address from the back
(`l[i]` is `l[len(l)+i]` for `-len <= i < 0`), anything outside raises
IndexError. -/
def pyListGet {α : Type} (l : List α) (i : ℤ) : Except PyError α :=
  let j : ℤ := if i < 0 then (l.length : ℤ) + i else i
  if j < 0 then .error .indexError
  else
    match l.get? j.toNat with
    | some x => .ok x
    | none => .error .indexError

/-- Embeds `ChannelRegistry.get_channel` (stratum_v2/pool.py lines 99-103):
`if channel_id < len(self.channels): return self.channels[channel_id]
else: return None`.  The guard admits every negative channel_id, so those
reach Python list subscription. -/
def ChannelRegistry.get_channel (r : ChannelRegistry) (channel_id : ℤ) :
    Except PyError (Option MiningChannelV2) :=
  if channel_id < (r.channels.length : ℤ) then
    (pyListGet r.channels channel_id).map some
  else
    .ok none

/-- Reduction helper: binding a successful `Except` computation applies the
continuation. -/
theorem except_bind_ok {ε α β : Type} (a : α) (f : α → Except ε β) :
    (Except.ok a >>= f) = f a := rfl

/-- Reduction helper: binding a failed `Except` computation propagates the
error. -/
theorem except_bind_error {ε α β : Type} (e : ε) (f : α → Except ε β) :
    ((Except.error e : Except ε α) >>= f) = Except.error e := rfl

/-- Claim C2.  The claim states that for every registry and every job_uid
present in it, `is_job_uid_valid(job_uid)` returns true iff
`job_uid >= min_valid_job_uid`.  In the source the body compares the
`MiningJob` object itself (not its uid) against the integer watermark, so the
call raises TypeError for every contained uid and never returns a boolean at
all. -/
theorem is_job_uid_valid_raises_type_error
    (r : MiningJobRegistry) (job_uid : Nat) (h : r.contains job_uid = true) :
    r.is_job_uid_valid job_uid = .error .typeError := by
  unfold MiningJobRegistry.contains at h
  unfold MiningJobRegistry.is_job_uid_valid
  cases hl : r.jobs.lookup job_uid with
  | none => rw [hl] at h; simp [Option.isSome] at h
  | some j => rfl

/-- Witness for `is_job_uid_valid_raises_type_error`: a concrete registry that
contains uid 7 (after `new_mining_job(7)`) on which the call raises. -/
theorem is_job_uid_valid_raises_type_error_witness :
    ((MiningJobRegistry.init.new_mining_job 7).2).is_job_uid_valid 7 =
      .error .typeError :=
  is_job_uid_valid_raises_type_error ((MiningJobRegistry.init.new_mining_job 7).2) 7
    (by decide)

/-- Claim C3.  The claim states `new_mining_job(diff_target)` returns jobs
whose uid fields follow 0, 1, 2, ... and whose diff_target field equals the
argument, registered under the uid.  On a fresh registry,
`new_mining_job(7)` actually returns a job with `uid = 7` and
`diff_target = 0` (the constructor arguments are transposed at the call
site), registered under key 7, while key 0 is absent. -/
theorem new_mining_job_swaps_uid_and_target :
    (MiningJobRegistry.init.new_mining_job 7).1.uid = 7 ∧
    (MiningJobRegistry.init.new_mining_job 7).1.diff_target = 0 ∧
    ((MiningJobRegistry.init.new_mining_job 7).2).jobs.lookup 7 =
      some (MiningJobRegistry.init.new_mining_job 7).1 ∧
    ((MiningJobRegistry.init.new_mining_job 7).2).jobs.lookup 0 = none := by
  refine ⟨rfl, rfl, ?_, ?_⟩ <;> decide

/-- Claim C1.  The claim describes three successful outcomes of
`Pool.process_submit` (rejected / accepted / stale with their counter
updates and callbacks).  In the source none of them is reachable: the
function always raises, because `is_job_uid_valid` raises KeyError for a uid
absent from the registry and TypeError for a present one (and the diff
computation can additionally raise ZeroDivisionError).  Hence no call ever
returns normally. -/
theorem process_submit_never_succeeds
    (p : PoolAcct) (s : SessionAcct) (submit_job_uid : Nat)
    (res : PoolAcct × SessionAcct × SubmitCallback) :
    Pool.process_submit p s submit_job_uid ≠ .ok res := by
  have heq : Pool.process_submit p s submit_job_uid =
      .error (match s.job_registry.jobs.lookup submit_job_uid with
              | none => PyError.keyError
              | some j =>
                  if j.diff_target = 0 then PyError.zeroDivisionError
                  else PyError.typeError) := by
    cases hl : s.job_registry.jobs.lookup submit_job_uid with
    | none =>
        simp only [Pool.process_submit, MiningJobRegistry.contains,
          MiningJobRegistry.is_job_uid_valid, hl]
        rfl
    | some j =>
        by_cases hz : j.diff_target = 0 <;>
          simp [Pool.process_submit, MiningJobRegistry.contains,
            MiningJobRegistry.get_job_diff_target, MiningJobRegistry.is_job_uid_valid,
            SessionAcct.target2diff, hl, hz, except_bind_ok, except_bind_error]
  intro h
  rw [heq] at h
  exact Except.noConfusion h

/-- Claim C5.  The claim states that a Subscribe in INIT or AUTHORIZED gets a
SubscribeResponse (8-byte extranonce1, pool extranonce2_size), the session
moves to SUBSCRIBED and is run, and any other state gets the error text.  In
the source both branches raise TypeError while constructing the reply
(required constructor arguments are missing), so no message is ever sent and
the session is never run; the only effect is that the INIT/AUTHORIZED branch
has already moved the state to SUBSCRIBED before raising. -/
theorem visit_subscribe_raises_type_error (s : MiningSessionV1) :
    (PoolV1.visit_subscribe s).2 = .error .typeError ∧
    (PoolV1.visit_subscribe s).1 =
      (if s.state = .INIT ∨ s.state = .AUTHORIZED then { s with state := .SUBSCRIBED }
       else s) ∧
    (PoolV1.visit_subscribe s).1.vardiff_started = s.vardiff_started ∧
    (PoolV1.visit_subscribe s).1.meter_created = s.meter_created := by
  unfold PoolV1.visit_subscribe
  by_cases h : s.state = .INIT ∨ s.state = .AUTHORIZED <;> simp [h]

/-- Claim C6.  The claim states that the V1 pool receive loop recovers from a
message with no visitor handler and replies with ErrorResult(-2, ...).  In
the source `Message.accept` raises VisitorMethodNotImplemented, which derives
from Exception rather than AttributeError, so the `except AttributeError`
arm of `Pool.__receive_loop` does not catch it and the exception escapes the
loop; moreover even the intended `_on_invalid_message` reply would itself
raise TypeError (ErrorResult is given two of its three required arguments). -/
theorem unknown_message_escapes_receive_loop (msgClassName : String)
    (h : Message.accept_method_name msgClassName ∉ PoolV1.visit_method_names) :
    Pool.receive_step PoolV1.visit_method_names msgClassName =
      .escaped (.visitorMethodNotImplemented (Message.accept_method_name msgClassName)) ∧
    PoolV1.on_invalid_message = .error .typeError := by
  refine ⟨?_, rfl⟩
  simp [Pool.receive_step, Message.accept, h, AcceptExc.is_attribute_error]

/-- Witness for `unknown_message_escapes_receive_loop`: a V2 SetupConnection
message delivered to the V1 pool has no handler there and kills the loop. -/
theorem unknown_message_escapes_receive_loop_witness :
    Pool.receive_step PoolV1.visit_method_names ("SetupConnection") =
      .escaped (.visitorMethodNotImplemented
        (Message.accept_method_name ("SetupConnection"))) ∧
    PoolV1.on_invalid_message = .error .typeError :=
  unknown_message_escapes_receive_loop ("SetupConnection") (by decide)

/-- Claim C4.  The claim states that an acceptable OpenStandardMiningChannel
yields the success/new-job/prev-hash/new-job sequence.  Against the Pool of
sim_primitives/pool.py the handler raises AttributeError on every input
(`pool.default_target` does not exist), so no message of the claimed
sequence is ever sent; independently, the dispatch of
`Message.accept` would look for visit_open_standard_mining_channel, a method
PoolV2 does not even define. -/
theorem visit_open_mining_channel_never_accepts :
    (∀ (pool : PoolFields) (msg : OpenMiningChannelMsg),
        PoolV2.visit_open_mining_channel pool msg = .error .attributeError) ∧
    Message.accept_method_name ("OpenStandardMiningChannel") ∉
      PoolV2.visit_method_names := by
  exact ⟨fun pool msg => rfl, by decide⟩

/-- Counterexample to claim C8: for d = 51 and D1 = 100 (positive, d ≤ D1,
d does not divide D1) the round trip yields 100, which differs from 51 by
49, not by at most 1. -/
theorem target_roundtrip_counterexample :
    0 < 51 ∧ 51 ≤ 100 ∧ ¬ (51 ∣ 100) ∧
    (Target.from_difficulty 51 100).to_difficulty = 100 ∧
    ¬ ((Target.from_difficulty 51 100).to_difficulty ≤ 51 + 1) := by
  decide

/-- Claim C8 as amended.  For positive d ≤ D1 the round trip equals
d + (D1 mod d) / (D1 div d): exactly d when d divides D1, and also exactly d
whenever d*d ≤ D1, but the error can exceed 1 when d*d > D1. -/
theorem target_roundtrip_difficulty (d D1 : Nat) (hd : 0 < d) (hdD : d ≤ D1) :
    (Target.from_difficulty d D1).to_difficulty = d + D1 % d / (D1 / d) ∧
    (d ∣ D1 → (Target.from_difficulty d D1).to_difficulty = d) ∧
    (d * d ≤ D1 → (Target.from_difficulty d D1).to_difficulty = d) := by
  have hq : 0 < D1 / d := Nat.div_pos hdD hd
  have hmain : (Target.from_difficulty d D1).to_difficulty = d + D1 % d / (D1 / d) := by
    have hmod := Nat.div_add_mod D1 d
    set q := D1 / d with hqdef
    set r := D1 % d with hrdef
    show D1 / q = d + r / q
    rw [← hmod, Nat.mul_comm d q, Nat.mul_add_div hq]
  refine ⟨hmain, ?_, ?_⟩
  · intro hdvd
    rw [hmain, Nat.dvd_iff_mod_eq_zero.mp hdvd]
    simp
  · intro hsq
    have hdq : d ≤ D1 / d := (Nat.le_div_iff_mul_le hd).mpr hsq
    have hr : D1 % d < D1 / d := lt_of_lt_of_le (Nat.mod_lt _ hd) hdq
    rw [hmain, Nat.div_eq_of_lt hr, Nat.add_zero]

/-- Witness for `target_roundtrip_difficulty` at d = 3, D1 = 10. -/
theorem target_roundtrip_difficulty_witness :
    (Target.from_difficulty 3 10).to_difficulty = 3 + 10 % 3 / (10 / 3) ∧
    (3 ∣ 10 → (Target.from_difficulty 3 10).to_difficulty = 3) ∧
    (3 * 3 ≤ 10 → (Target.from_difficulty 3 10).to_difficulty = 3) :=
  target_roundtrip_difficulty 3 10 (by decide) (by decide)

/-- Counterexample to claim C9: terminating a concrete vardiff-enabled
session succeeds once (its processes become terminated), and the second
terminate raises RuntimeError instead of being a no-op. -/
theorem terminate_twice_counterexample :
    MiningSession.terminate
        { enable_vardiff := true, vardiff_process := some { alive := true },
          meter := some { roll_proc := { alive := true }, put_on_hold_proc := none } } =
      .ok { enable_vardiff := true, vardiff_process := some { alive := false },
            meter := some { roll_proc := { alive := false }, put_on_hold_proc := none } } ∧
    MiningSession.terminate
        { enable_vardiff := true, vardiff_process := some { alive := false },
          meter := some { roll_proc := { alive := false }, put_on_hold_proc := none } } =
      .error .runtimeError :=
  ⟨rfl, rfl⟩

/-- Claim C9 as amended.  After a successful `terminate()`, a second
`terminate()` is a no-op only when vardiff is disabled (the body does
nothing); when vardiff is enabled it raises RuntimeError, because simpy
refuses to interrupt the already-completed vardiff process. -/
theorem terminate_twice_raises (s s' : MiningSessionProcs)
    (h : MiningSession.terminate s = .ok s') :
    (s.enable_vardiff = true → MiningSession.terminate s' = .error .runtimeError) ∧
    (s.enable_vardiff = false → MiningSession.terminate s' = .ok s') := by
  constructor
  · intro hv
    cases hvp : s.vardiff_process with
    | none => simp [MiningSession.terminate, hv, hvp] at h
    | some p =>
        cases hpa : p.alive with
        | false =>
            simp [MiningSession.terminate, hv, hvp, SimProc.interrupt, hpa] at h
        | true =>
            cases hm : s.meter with
            | none =>
                simp [MiningSession.terminate, hv, hvp, SimProc.interrupt, hpa, hm] at h
            | some mt =>
                cases hra : mt.roll_proc.alive with
                | false =>
                    simp [MiningSession.terminate, hv, hvp, SimProc.interrupt, hpa,
                      hm, HashrateMeter.terminate, hra] at h
                | true =>
                    cases hh : mt.put_on_hold_proc with
                    | none =>
                        simp [MiningSession.terminate, hv, hvp, SimProc.interrupt,
                          hpa, hm, HashrateMeter.terminate, hra, hh] at h
                        rw [← h]
                        simp [MiningSession.terminate, hv, SimProc.interrupt]
                    | some hp =>
                        cases hha : hp.alive with
                        | false =>
                            simp [MiningSession.terminate, hv, hvp, SimProc.interrupt,
                              hpa, hm, HashrateMeter.terminate, hra, hh, hha] at h
                        | true =>
                            simp [MiningSession.terminate, hv, hvp, SimProc.interrupt,
                              hpa, hm, HashrateMeter.terminate, hra, hh, hha] at h
                            rw [← h]
                            simp [MiningSession.terminate, hv, SimProc.interrupt]
  · intro hv
    simp [MiningSession.terminate, hv] at h
    rw [← h]
    simp [MiningSession.terminate, hv]

/-- Witness for `terminate_twice_raises` on a concrete running session. -/
theorem terminate_twice_raises_witness :
    ((({ enable_vardiff := true, vardiff_process := some { alive := true },
         meter := some { roll_proc := { alive := true }, put_on_hold_proc := none } } :
        MiningSessionProcs).enable_vardiff = true →
      MiningSession.terminate
          { enable_vardiff := true, vardiff_process := some { alive := false },
            meter := some { roll_proc := { alive := false }, put_on_hold_proc := none } } =
        .error .runtimeError) ∧
     (({ enable_vardiff := true, vardiff_process := some { alive := true },
         meter := some { roll_proc := { alive := true }, put_on_hold_proc := none } } :
        MiningSessionProcs).enable_vardiff = false →
      MiningSession.terminate
          { enable_vardiff := true, vardiff_process := some { alive := false },
            meter := some { roll_proc := { alive := false }, put_on_hold_proc := none } } =
        .ok { enable_vardiff := true, vardiff_process := some { alive := false },
              meter := some { roll_proc := { alive := false },
                              put_on_hold_proc := none } })) :=
  terminate_twice_raises _ _ rfl

/-- Counterexample to claim C10: a registry holding one channel, queried with
channel_id = -2, raises IndexError instead of returning a channel. -/
theorem get_channel_negative_counterexample :
    (((ChannelRegistry.init 0).append { conn_uid := 0, id := none }).channels.length
        = 1) ∧
    ((ChannelRegistry.init 0).append { conn_uid := 0, id := none }).get_channel (-2) =
      .error .indexError :=
  ⟨rfl, rfl⟩

/-- Claim C10 as amended.  For a registry whose channels carry their position
as id (the invariant `append` maintains): get_channel returns the channel
with id = channel_id for 0 ≤ channel_id < n, None for channel_id ≥ n, the
channel at index n + channel_id for -n ≤ channel_id < 0, and raises
IndexError for channel_id < -n; so a negative channel_id is never reported
as unknown. -/
theorem get_channel_classification (r : ChannelRegistry) (i : ℤ)
    (hids : ∀ (k : Nat) (hk : k < r.channels.length),
      (r.channels.get ⟨k, hk⟩).id = some k) :
    ((r.channels.length : ℤ) ≤ i → r.get_channel i = .ok none) ∧
    (0 ≤ i → i < (r.channels.length : ℤ) →
      ∃ c, r.get_channel i = .ok (some c) ∧ c.id = some i.toNat) ∧
    (i < 0 → -(r.channels.length : ℤ) ≤ i →
      ∃ c, r.get_channel i = .ok (some c) ∧
        r.channels.get? ((r.channels.length : ℤ) + i).toNat = some c) ∧
    (i < -(r.channels.length : ℤ) → r.get_channel i = .error .indexError) := by
  refine ⟨?_, ?_, ?_, ?_⟩
  · intro h
    unfold ChannelRegistry.get_channel
    rw [if_neg (by omega)]
  · intro h0 hlt
    have hn : i.toNat < r.channels.length := by omega
    refine ⟨r.channels.get ⟨i.toNat, hn⟩, ?_, hids i.toNat hn⟩
    unfold ChannelRegistry.get_channel pyListGet
    rw [if_pos hlt, if_neg (by omega : ¬ i < 0), if_neg (by omega : ¬ i < 0)]
    rw [List.get?_eq_get hn]
    rfl
  · intro hneg hge
    have hn : ((r.channels.length : ℤ) + i).toNat < r.channels.length := by omega
    refine ⟨r.channels.get ⟨((r.channels.length : ℤ) + i).toNat, hn⟩, ?_,
      List.get?_eq_get hn⟩
    unfold ChannelRegistry.get_channel pyListGet
    rw [if_pos (by omega : i < (r.channels.length : ℤ)), if_pos hneg,
      if_neg (by omega : ¬ (r.channels.length : ℤ) + i < 0)]
    rw [List.get?_eq_get hn]
    rfl
  · intro h
    unfold ChannelRegistry.get_channel pyListGet
    rw [if_pos (by omega : i < (r.channels.length : ℤ)),
      if_pos (by omega : i < 0), if_pos (by omega : (r.channels.length : ℤ) + i < 0)]
    rfl

/-- Witness for `get_channel_classification` on a concrete two-channel
registry. -/
theorem get_channel_classification_witness :
    (((((ChannelRegistry.init 0).append { conn_uid := 0, id := none }).append
          { conn_uid := 0, id := none }).channels.length : ℤ) ≤ (-1) →
      (((ChannelRegistry.init 0).append { conn_uid := 0, id := none }).append
          { conn_uid := 0, id := none }).get_channel (-1) = .ok none) ∧
    (0 ≤ (-1 : ℤ) →
      (-1 : ℤ) < ((((ChannelRegistry.init 0).append { conn_uid := 0, id := none }).append
          { conn_uid := 0, id := none }).channels.length : ℤ) →
      ∃ c, (((ChannelRegistry.init 0).append { conn_uid := 0, id := none }).append
          { conn_uid := 0, id := none }).get_channel (-1) = .ok (some c) ∧
        c.id = some (-1 : ℤ).toNat) ∧
    ((-1 : ℤ) < 0 →
      -((((ChannelRegistry.init 0).append { conn_uid := 0, id := none }).append
          { conn_uid := 0, id := none }).channels.length : ℤ) ≤ (-1) →
      ∃ c, (((ChannelRegistry.init 0).append { conn_uid := 0, id := none }).append
          { conn_uid := 0, id := none }).get_channel (-1) = .ok (some c) ∧
        (((ChannelRegistry.init 0).append { conn_uid := 0, id := none }).append
          { conn_uid := 0, id := none }).channels.get?
            (((((ChannelRegistry.init 0).append { conn_uid := 0, id := none }).append
                { conn_uid := 0, id := none }).channels.length : ℤ) + (-1)).toNat =
          some c) ∧
    ((-1 : ℤ) < -((((ChannelRegistry.init 0).append { conn_uid := 0, id := none }).append
          { conn_uid := 0, id := none }).channels.length : ℤ) →
      (((ChannelRegistry.init 0).append { conn_uid := 0, id := none }).append
          { conn_uid := 0, id := none }).get_channel (-1) = .error .indexError) :=
  get_channel_classification
    (((ChannelRegistry.init 0).append { conn_uid := 0, id := none }).append
      { conn_uid := 0, id := none })
    (-1) (by decide)

/-- Helper: the clamp of `MiningSession.__vardiff_loop` always lands in
[min_factor, max_factor] = [1/4, 4]. -/
theorem clamp_factor_bounds (f0 : ℚ) :
    1/4 ≤ MiningSession.clamp_factor f0 ∧ MiningSession.clamp_factor f0 ≤ 4 := by
  unfold MiningSession.clamp_factor MiningSession.min_factor MiningSession.max_factor
  split_ifs with h1 h2 <;> constructor <;> linarith

/-- Helper: Python rounding never exceeds an integer upper bound of its
argument. -/
theorem pyRoundHalfEven_le_of_le (q : ℚ) (z : ℤ) (h : q ≤ (z : ℚ)) :
    pyRoundHalfEven q ≤ z := by
  have hfl : ⌊q⌋ ≤ z := by
    have h1 := Int.floor_le_floor h
    simpa using h1
  have hlow : (⌊q⌋ : ℚ) ≤ q := Int.floor_le q
  unfold pyRoundHalfEven
  split_ifs with h1 h2 h3
  · exact hfl
  · rcases lt_or_eq_of_le hfl with hlt | heq
    · omega
    · exfalso
      have hq : q ≤ (⌊q⌋ : ℚ) := by rw [heq]; exact h
      linarith
  · exact hfl
  · rcases lt_or_eq_of_le hfl with hlt | heq
    · omega
    · exfalso
      have hq : q ≤ (⌊q⌋ : ℚ) := by rw [heq]; exact h
      linarith

/-- Helper: Python rounding moves its argument by at most one half
downwards. -/
theorem le_pyRoundHalfEven (q : ℚ) : q - 1/2 ≤ (pyRoundHalfEven q : ℚ) := by
  have h1 : (⌊q⌋ : ℚ) ≤ q := Int.floor_le q
  have h2 : q < ⌊q⌋ + 1 := Int.lt_floor_add_one q
  unfold pyRoundHalfEven
  split_ifs with ha hb hc <;> push_cast <;> linarith

/-- Counterexample to claim C7: with measured rate 3/40 and desired rate 3/10
the factor is exactly 1/4 (inside the clamp), but from difficulty 5 the
update `int(round(5 * 0.25))` yields 1, a reduction by a factor of 5 -- the
difficulty does not change by at most a factor of 4. -/
theorem vardiff_shrink_counterexample :
    MiningSession.vardiff_iteration 5 (some (3/40)) (3/10) =
      .ok { factor := 1/4, curr_diff := 1, on_vardiff_change_called := true } ∧
    4 * (1 : ℤ) < 5 := by
  constructor
  · have hf54 : (⌊(5/4 : ℚ)⌋ : ℤ) = 1 := by
      rw [Int.floor_eq_iff]
      norm_num
    have hfv : MiningSession.vardiff_factor0 (some (3/40)) (3/10) = .ok (1/4 : ℚ) := by
      unfold MiningSession.vardiff_factor0
      norm_num
    have hcl : MiningSession.clamp_factor (1/4 : ℚ) = 1/4 := by
      unfold MiningSession.clamp_factor MiningSession.min_factor MiningSession.max_factor
      norm_num
    have hmul : ((5 : ℤ) : ℚ) * (1/4 : ℚ) = 5/4 := by norm_num
    have hround : pyRoundHalfEven (((5 : ℤ) : ℚ) * (1/4 : ℚ)) = 1 := by
      rw [hmul]
      unfold pyRoundHalfEven
      rw [hf54]
      norm_num
    unfold MiningSession.vardiff_iteration
    rw [hfv]
    show (Except.ok
        { factor := MiningSession.clamp_factor (1/4 : ℚ)
          curr_diff := pyRoundHalfEven (((5 : ℤ) : ℚ) * MiningSession.clamp_factor (1/4 : ℚ))
          on_vardiff_change_called := true } : Except PyError VardiffIter) = _
    rw [hcl, hround]
  · decide

/-- Claim C7 as amended.  Every iteration applies a factor f with
1/4 ≤ f ≤ 4 (f = 1/2 when the measured rate is 0), calls on_vardiff_change,
and the new difficulty int(round(d * f)) is at most 4d; however, because of
the rounding it is only bounded below by d/4 - 1/2 (so the difficulty can
shrink by more than a factor of 4, and can reach 0 for small d). -/
theorem vardiff_iteration_bounds (d : ℤ) (r desired : ℚ)
    (hdes : desired ≠ 0) (hd : 0 ≤ d) :
    ∃ out, MiningSession.vardiff_iteration d (some r) desired = .ok out ∧
      1/4 ≤ out.factor ∧ out.factor ≤ 4 ∧
      (r = 0 → out.factor = 1/2) ∧
      out.curr_diff ≤ 4 * d ∧
      (d : ℚ)/4 - 1/2 ≤ (out.curr_diff : ℚ) ∧
      out.on_vardiff_change_called = true := by
  have heval : MiningSession.vardiff_factor0 (some r) desired =
      .ok (if r = 0 then (1/2 : ℚ) else r / desired) := by
    unfold MiningSession.vardiff_factor0
    by_cases hr0 : r = 0
    · simp [hr0]
    · simp [hr0, hdes]
  set f0 : ℚ := if r = 0 then (1/2 : ℚ) else r / desired with hf0
  have hcb := clamp_factor_bounds f0
  have hd' : (0 : ℚ) ≤ (d : ℚ) := by exact_mod_cast hd
  refine ⟨{ factor := MiningSession.clamp_factor f0,
            curr_diff := pyRoundHalfEven ((d : ℚ) * MiningSession.clamp_factor f0),
            on_vardiff_change_called := true }, ?_, hcb.1, hcb.2, ?_, ?_, ?_, rfl⟩
  · unfold MiningSession.vardiff_iteration
    rw [heval]
  · intro hr0
    have hf : f0 = 1/2 := by rw [hf0]; simp [hr0]
    rw [hf]
    unfold MiningSession.clamp_factor MiningSession.min_factor MiningSession.max_factor
    norm_num
  · show pyRoundHalfEven ((d : ℚ) * MiningSession.clamp_factor f0) ≤ 4 * d
    apply pyRoundHalfEven_le_of_le
    have : (d : ℚ) * MiningSession.clamp_factor f0 ≤ (d : ℚ) * 4 :=
      mul_le_mul_of_nonneg_left hcb.2 hd'
    push_cast
    linarith
  · show (d : ℚ)/4 - 1/2 ≤
      ((pyRoundHalfEven ((d : ℚ) * MiningSession.clamp_factor f0) : ℤ) : ℚ)
    have hmul : (d : ℚ) * (1/4) ≤ (d : ℚ) * MiningSession.clamp_factor f0 :=
      mul_le_mul_of_nonneg_left hcb.1 hd'
    have hlo := le_pyRoundHalfEven ((d : ℚ) * MiningSession.clamp_factor f0)
    linarith

/-- Witness for `vardiff_iteration_bounds` at difficulty 100000, measured
rate 0 and the default desired rate 0.3. -/
theorem vardiff_iteration_bounds_witness :
    ∃ out, MiningSession.vardiff_iteration 100000 (some 0) (3/10) = .ok out ∧
      1/4 ≤ out.factor ∧ out.factor ≤ 4 ∧
      ((0 : ℚ) = 0 → out.factor = 1/2) ∧
      out.curr_diff ≤ 4 * 100000 ∧
      ((100000 : ℤ) : ℚ)/4 - 1/2 ≤ (out.curr_diff : ℚ) ∧
      out.on_vardiff_change_called = true :=
  vardiff_iteration_bounds 100000 0 (3/10) (by norm_num) (by norm_num)
